import Mathlib

/-!
Verification of the tool-execution subsystem of the
`indubitably-rust-agent-sdk` repository: the tool registry
(`src/tools/registry.rs`), the tool executor (`src/tools/executor.rs`)
and the tool watcher (`src/tools/watcher.rs`), shallowly embedded in
Lean 4.  Machine integers (`u64` millisecond counts, map sizes) are
modelled as `Nat`; the `serde_json::Value` document type is modelled by
an inductive `Value`; `HashMap` state is modelled by association lists
with `HashMap`-style first-occurrence lookup/replace/remove;
fallible Rust functions returning `Result` are modelled with `Except`.
-/

namespace Indubitably

/-- JSON-like structured value, modelling `serde_json::Value`.  Numbers are
modelled as `Nat` (the executor only ever stores unsigned millisecond /
second counts in them). -/
inductive Value where
  | null
  | bool (b : Bool)
  | num (n : Nat)
  | str (s : String)
  | arr (xs : List Value)
  | obj (fields : List (String × Value))

/-- First-occurrence association-list lookup, modelling `HashMap::get`. -/
def mapLookup {κ α : Type} [DecidableEq κ] : List (κ × α) → κ → Option α
  | [], _ => none
  | (k', v) :: rest, k => if k' = k then some v else mapLookup rest k

/-- Association-list membership test, modelling `HashMap::contains_key`. -/
def mapContains {κ α : Type} [DecidableEq κ] : List (κ × α) → κ → Bool
  | [], _ => false
  | (k', _) :: rest, k => if k' = k then true else mapContains rest k

/-- Association-list insert that replaces the first binding of the key if
present and appends otherwise, modelling `HashMap::insert` (last write
wins, distinct keys stay distinct). -/
def mapInsert {κ α : Type} [DecidableEq κ] : List (κ × α) → κ → α → List (κ × α)
  | [], k, v => [(k, v)]
  | (k', v') :: rest, k, v =>
      if k' = k then (k, v) :: rest else (k', v') :: mapInsert rest k v

/-- Association-list removal of the first binding of the key, modelling
`HashMap::remove`. -/
def mapRemove {κ α : Type} [DecidableEq κ] : List (κ × α) → κ → List (κ × α)
  | [], _ => []
  | (k', v') :: rest, k =>
      if k' = k then rest else (k', v') :: mapRemove rest k

/-- Errors that can occur during tool execution
(`src/types/exceptions.rs`, enum `ToolError`). -/
inductive ToolError where
  | toolNotFound (msg : String)
  | executionFailed (msg : String)
  | invalidInput (msg : String)
  | invalidOutput (msg : String)
  | toolNotAvailable (msg : String)
  | timeoutError (msg : String)
  deriving DecidableEq

/-- Display formatting of `ToolError` as produced by the `thiserror`
attributes in `src/types/exceptions.rs`. -/
def ToolError.display : ToolError → String
  | .toolNotFound msg => "Tool not found: " ++ msg
  | .executionFailed msg => "Tool execution failed: " ++ msg
  | .invalidInput msg => "Invalid tool input: " ++ msg
  | .invalidOutput msg => "Invalid tool output: " ++ msg
  | .toolNotAvailable msg => "Tool not available: " ++ msg
  | .timeoutError msg => "Tool timeout: " ++ msg

/-- The SDK-wide error type (`src/types/exceptions.rs`, enum
`IndubitablyError`).  Only the `ToolError` arm is structural in this
development; every other arm is modelled by the string its `Display`
implementation would produce, which is all the executor ever extracts
from it (`e.to_string()` at executor.rs line 177). -/
inductive IndubitablyError where
  | toolError (e : ToolError)
  | otherError (display : String)
  deriving DecidableEq

/-- Display formatting of `IndubitablyError` (`thiserror` attribute
format string "Tool error: ..." for the `ToolError` arm). -/
def IndubitablyError.display : IndubitablyError → String
  | .toolError e => "Tool error: " ++ e.display
  | .otherError s => s

/-- Metadata about a tool (`registry.rs`, struct `ToolMetadata`).  The
`extra` map is modelled as an association list. -/
structure ToolMetadata where
  input_schema : Option Value
  output_schema : Option Value
  extra : Option (List (String × Value))

/-- Default `ToolMetadata` (registry.rs lines 43-51): all fields `None`. -/
def ToolMetadata.default : ToolMetadata :=
  { input_schema := none, output_schema := none, extra := none }

/-- A tool that can be executed by an agent (`registry.rs`, struct
`Tool`).  The `function` field models the `ToolFunction` closure
`Fn(serde_json::Value) -> IndubitablyResult<serde_json::Value>`. -/
structure Tool where
  name : String
  description : String
  function : Value → Except IndubitablyError Value
  metadata : ToolMetadata

/-- Tool constructor (`Tool::new`, registry.rs lines 85-92). -/
def Tool.new (name description : String)
    (function : Value → Except IndubitablyError Value) : Tool :=
  { name := name, description := description, function := function,
    metadata := ToolMetadata.default }

/-- Execute the tool with the given input (`Tool::execute`,
registry.rs lines 101-103): apply the stored closure. -/
def Tool.execute (t : Tool) (input : Value) : Except IndubitablyError Value :=
  t.function input

/-- The registry state: the `HashMap<String, Tool>` inside
`ToolRegistry`'s `Arc<RwLock<...>>` (registry.rs line 115), modelled as
an association list keyed by tool name. -/
def ToolRegistry : Type := List (String × Tool)

/-- Empty registry (`ToolRegistry::new`, registry.rs lines 120-124). -/
def ToolRegistry.new : ToolRegistry := []

/-- Register a tool (`ToolRegistry::register`, registry.rs lines
127-131): `HashMap::insert` under the tool's own name, then `Ok(())`.
Returns the updated map state together with the `Result` value. -/
def ToolRegistry.register (reg : ToolRegistry) (tool : Tool) :
    ToolRegistry × Except IndubitablyError Unit :=
  (mapInsert reg tool.name tool, Except.ok ())

/-- Unregister a tool (`ToolRegistry::unregister`, registry.rs lines
134-138): `HashMap::remove`, then `Ok(())`. -/
def ToolRegistry.unregister (reg : ToolRegistry) (name : String) :
    ToolRegistry × Except IndubitablyError Unit :=
  (mapRemove reg name, Except.ok ())

/-- Get a tool by name (`ToolRegistry::get`, registry.rs lines 141-144):
`HashMap::get` followed by `cloned()` (cloning is the identity in this
embedding). -/
def ToolRegistry.get (reg : ToolRegistry) (name : String) : Option Tool :=
  mapLookup reg name

/-- Check if a tool exists (`ToolRegistry::exists`, registry.rs lines
165-168): `HashMap::contains_key`. -/
def ToolRegistry.existsTool (reg : ToolRegistry) (name : String) : Bool :=
  mapContains reg name

/-- Number of tools in the registry (`ToolRegistry::count`, registry.rs
lines 171-174): `HashMap::len`. -/
def ToolRegistry.count (reg : ToolRegistry) : Nat :=
  reg.length

/-- Clear all tools (`ToolRegistry::clear`, registry.rs lines 177-181):
`HashMap::clear`, then `Ok(())`. -/
def ToolRegistry.clear (_reg : ToolRegistry) :
    ToolRegistry × Except IndubitablyError Unit :=
  (([] : List (String × Tool)), Except.ok ())

/-- The result of a tool execution (`executor.rs`, struct
`ToolExecutionResult`).  Durations are in milliseconds (`u64` in the
source, `Nat` here); the metadata `HashMap<String, Value>` is an
association list. -/
structure ToolExecutionResult where
  success : Bool
  output : Value
  execution_time_ms : Nat
  error : Option String
  metadata : List (String × Value)

/-- Successful-result constructor (`ToolExecutionResult::success`,
executor.rs lines 33-41; named `mkSuccess` here because `success` is
the field name). -/
def ToolExecutionResult.mkSuccess (output : Value)
    (execution_time_ms : Nat) : ToolExecutionResult :=
  { success := true, output := output,
    execution_time_ms := execution_time_ms, error := none, metadata := [] }

/-- Failed-result constructor (`ToolExecutionResult::failure`,
executor.rs lines 44-52): `output` is `Value::Null` and `error` carries
the message. -/
def ToolExecutionResult.mkFailure (error : String)
    (execution_time_ms : Nat) : ToolExecutionResult :=
  { success := false, output := Value.null,
    execution_time_ms := execution_time_ms, error := some error,
    metadata := [] }

/-- Add metadata to the result (`ToolExecutionResult::with_metadata`,
executor.rs lines 55-58): `HashMap::insert`. -/
def ToolExecutionResult.with_metadata (r : ToolExecutionResult)
    (key : String) (value : Value) : ToolExecutionResult :=
  { r with metadata := mapInsert r.metadata key value }

/-- Context for tool execution (`executor.rs`, struct
`ToolExecutionContext`).  The `timeout: Duration` field is modelled in
milliseconds. -/
structure ToolExecutionContext where
  tool_name : String
  input : Value
  timeout_ms : Nat
  context : List (String × Value)

/-- Context constructor (`ToolExecutionContext::new`, executor.rs lines
91-98): default timeout 30 seconds = 30000 ms, empty context map. -/
def ToolExecutionContext.new (tool_name : String) (input : Value) :
    ToolExecutionContext :=
  { tool_name := tool_name, input := input, timeout_ms := 30000,
    context := [] }

/-- Set the timeout (`ToolExecutionContext::with_timeout`, executor.rs
lines 101-104). -/
def ToolExecutionContext.with_timeout (ctx : ToolExecutionContext)
    (timeout_ms : Nat) : ToolExecutionContext :=
  { ctx with timeout_ms := timeout_ms }

/-- A tool executor (`executor.rs`, struct `ToolExecutor`). -/
structure ToolExecutor where
  default_timeout_ms : Nat
  enable_logging : Bool

/-- Executor constructor (`ToolExecutor::new`, executor.rs lines
129-134): default timeout 30 seconds, logging off. -/
def ToolExecutor.new : ToolExecutor :=
  { default_timeout_ms := 30000, enable_logging := false }

/-- Debug rendering of a whole-millisecond `std::time::Duration` as used
by the `format!("... timed out after ...")` message (executor.rs lines
214-217): Rust prints `Duration::from_millis(30000)` as "30s" and
`Duration::from_millis(10)` as "10ms". -/
def durationDebug (ms : Nat) : String :=
  if ms % 1000 = 0 then toString (ms / 1000) ++ "s" else toString ms ++ "ms"

/-- The timeout error message built in the deadline-elapsed branch of
`ToolExecutor::execute` (executor.rs lines 214-217). -/
def timeoutMessage (tool_name : String) (timeout_ms : Nat) : String :=
  "Tool '" ++ tool_name ++ "' execution timed out after "
    ++ durationDebug timeout_ms

/-- Outcome of `tokio::time::timeout(timeout_duration, future)` at
executor.rs lines 173-180: `Except.error ()` models the `Elapsed` case,
`Except.ok` the case where the wrapped future completed first, carrying
the body's `Result` with the domain error already rendered by
`e.to_string()` (line 177). -/
abbrev TimedOutcome : Type := Except Unit (Except String Value)

/-- Result shaping performed by `ToolExecutor::execute` after the
bounded wait: the three-armed `match execution_result` at executor.rs
lines 185-228.  A total function — every arm constructs a
`ToolExecutionResult` value; nothing is raised. -/
def ToolExecutor.processResult (tool_name : String) (timeout_ms : Nat)
    (execution_result : TimedOutcome) (execution_time_ms : Nat) :
    ToolExecutionResult :=
  match execution_result with
  | Except.ok (Except.ok output) =>
      ((ToolExecutionResult.mkSuccess output execution_time_ms).with_metadata
          "tool_name" (Value.str tool_name)).with_metadata
        "execution_time" (Value.num execution_time_ms)
  | Except.ok (Except.error error) =>
      ((ToolExecutionResult.mkFailure error execution_time_ms).with_metadata
          "tool_name" (Value.str tool_name)).with_metadata
        "execution_time" (Value.num execution_time_ms)
  | Except.error _ =>
      (((ToolExecutionResult.mkFailure (timeoutMessage tool_name timeout_ms)
            execution_time_ms).with_metadata
          "tool_name" (Value.str tool_name)).with_metadata
        "execution_time" (Value.num execution_time_ms)).with_metadata
        "timeout" (Value.num (timeout_ms / 1000))

/-- Semantics of the bounded wait at executor.rs lines 173-180 for the
SDK's synchronous `ToolFunction` bodies: the async block passed to
`tokio::time::timeout` contains no await point, so its first poll runs
the body to completion (blocking for `body_ms` milliseconds) and
returns `Ready`; `tokio::time::timeout` only yields `Elapsed` when the
inner future is still pending at the deadline, which therefore never
happens, whatever `timeout_ms` is.  The source's own test
`test_tool_execution_timeout` (executor.rs lines 329-337) documents
exactly this: "the current architecture doesn't support timeouts for
synchronous tools". -/
def syncBoundedWait (_timeout_ms _body_ms : Nat)
    (body_result : Except String Value) : TimedOutcome :=
  Except.ok body_result

/-- Execute a tool with the given context (`ToolExecutor::execute`,
executor.rs lines 157-229).  `body_ms` is the wall-clock time the
synchronous invocation body blocks for; since the bounded wait cannot
return before the body's first poll completes, the measured elapsed
time equals `body_ms`. -/
def ToolExecutor.execute (_ex : ToolExecutor) (tool : Tool)
    (ctx : ToolExecutionContext) (body_ms : Nat) : ToolExecutionResult :=
  let timeout_duration := ctx.timeout_ms
  let body_result : Except String Value :=
    match tool.execute ctx.input with
    | Except.ok output => Except.ok output
    | Except.error e => Except.error e.display
  let execution_result := syncBoundedWait timeout_duration body_ms body_result
  let execution_time_ms := body_ms
  ToolExecutor.processResult ctx.tool_name timeout_duration
    execution_result execution_time_ms

/-- Execute a tool by name from a registry (`ToolExecutor::execute_by_name`,
executor.rs lines 232-248): registry miss becomes an infrastructure-level
`ToolNotFound` error; otherwise a context with the executor's default
timeout is built and `execute` is delegated to. -/
def ToolExecutor.execute_by_name (ex : ToolExecutor) (tool_name : String)
    (input : Value) (registry : ToolRegistry) (body_ms : Nat) :
    Except IndubitablyError ToolExecutionResult :=
  match registry.get tool_name with
  | none =>
      Except.error (IndubitablyError.toolError
        (ToolError.toolNotFound ("Tool '" ++ tool_name ++ "' not found")))
  | some tool =>
      let ctx := (ToolExecutionContext.new tool_name input).with_timeout
        ex.default_timeout_ms
      Except.ok (ex.execute tool ctx body_ms)

/-- Outcome of awaiting one spawned task's `JoinHandle` (executor.rs
lines 266-276): `completed` models `Ok(result)`, `failed` models
`Err(join_error)` (panic or cancellation) carrying the join error's
`Display` string. -/
inductive JoinOutcome where
  | completed
  | failed (display : String)
  deriving DecidableEq

/-- The join loop of `execute_parallel` (executor.rs lines 265-277):
handles were pushed in submission order by the spawn loop, so awaiting
them in order yields one result per submitted pair, in submission
order; a failed join is converted into a synthetic
`ToolExecutionResult::failure` in its own slot.  `i` is the index of
the first remaining handle; `body_ms` and `join_of` model, per
submission index, the wall-clock duration of that slot's body and
whether the spawned task ran to completion. -/
def executeParallelJoin (ex : ToolExecutor) (body_ms : Nat → Nat)
    (join_of : Nat → JoinOutcome) :
    List (Tool × ToolExecutionContext) → Nat → List ToolExecutionResult
  | [], _ => []
  | (tool, ctx) :: rest, i =>
      (match join_of i with
       | JoinOutcome.completed => ex.execute tool ctx (body_ms i)
       | JoinOutcome.failed e =>
           ToolExecutionResult.mkFailure ("Task execution failed: " ++ e) 0)
      :: executeParallelJoin ex body_ms join_of rest (i + 1)

/-- Execute multiple tools in parallel (`ToolExecutor::execute_parallel`,
executor.rs lines 251-280): spawn one task per pair in submission
order, then await the handles in that same order. -/
def ToolExecutor.execute_parallel (ex : ToolExecutor)
    (executions : List (Tool × ToolExecutionContext))
    (body_ms : Nat → Nat) (join_of : Nat → JoinOutcome) :
    List ToolExecutionResult :=
  executeParallelJoin ex body_ms join_of executions 0

/-- Configuration for the tool watcher (`watcher.rs`, struct
`ToolWatcherConfig`).  The watch directory is kept as its path string;
`debounce_ms` as `Nat`. -/
structure ToolWatcherConfig where
  watch_directory : String
  recursive : Bool
  file_extensions : List String
  debounce_ms : Nat
  enable_hot_reload : Bool

/-- Default watcher configuration (watcher.rs lines 31-41). -/
def ToolWatcherConfig.default : ToolWatcherConfig :=
  { watch_directory := "./tools", recursive := true,
    file_extensions := ["rs", "toml"], debounce_ms := 1000,
    enable_hot_reload := true }

/-- A filesystem path as the watcher observes it, abstracted to the two
accessors the watcher uses: `Path::file_stem` and `Path::extension`
(watcher.rs lines 202-209 and 219-222).  `stem` models the
already-UTF-8-decoded stem (the source substitutes "unknown" for an
undecodable one, which this model folds into `stem`). -/
structure WatchedPath where
  stem : String
  ext : Option String
  deriving DecidableEq

/-- Check whether a file should be watched
(`ToolWatcher::should_watch_file` / `should_watch_file_static`,
watcher.rs lines 202-209 and 307-314): its extension must be on the
configured allow-list; extensionless files are never watched. -/
def shouldWatchFile (config : ToolWatcherConfig) (path : WatchedPath) :
    Bool :=
  match path.ext with
  | some e => config.file_extensions.contains e
  | none => false

/-- Debug rendering of a path for the placeholder tool description
(watcher.rs line 227); its exact shape is irrelevant to every claim. -/
def WatchedPath.debugRepr (p : WatchedPath) : String :=
  match p.ext with
  | some e => p.stem ++ "." ++ e
  | none => p.stem

/-- The placeholder tool registered for a tool file
(`ToolWatcher::load_tool_file`, watcher.rs lines 212-238): named after
the file stem, described by the path, returning the string
"placeholder" on every input. -/
def placeholderTool (path : WatchedPath) : Tool :=
  Tool.new path.stem ("Tool loaded from " ++ path.debugRepr)
    (fun _ => Except.ok (Value.str "placeholder"))

/-- Watcher state (`watcher.rs`, struct `ToolWatcher`).  `fsWatcher`
models the `Option<notify::RecommendedWatcher>` field (the live
filesystem subscription); the registry it mutates through its
`Arc<ToolRegistry>` handle is carried as the map state; `loaded_tools`
is the path-to-tool-name table. -/
structure ToolWatcher where
  config : ToolWatcherConfig
  registry : ToolRegistry
  fsWatcher : Option Unit
  loaded_tools : List (WatchedPath × String)

/-- Watcher constructor (`ToolWatcher::new`, watcher.rs lines 110-122):
no subscription yet, empty loaded-tools table. -/
def ToolWatcher.new (config : ToolWatcherConfig) (registry : ToolRegistry) :
    ToolWatcher :=
  { config := config, registry := registry, fsWatcher := none,
    loaded_tools := [] }

/-- Check if the watcher is running (`ToolWatcher::is_running`,
watcher.rs lines 176-178): the subscription is present. -/
def ToolWatcher.is_running (w : ToolWatcher) : Bool :=
  w.fsWatcher.isSome

/-- Stop watching (`ToolWatcher::stop`, watcher.rs lines 166-168): the
one and only effect is dropping the `notify` subscription
(`self.watcher = None`); config, registry contents and the
loaded-tools table are untouched. -/
def ToolWatcher.stop (w : ToolWatcher) : ToolWatcher :=
  { w with fsWatcher := none }

/-- The `Drop` implementation for `ToolWatcher` (watcher.rs lines
370-374) just calls `stop`. -/
def ToolWatcher.dropped (w : ToolWatcher) : ToolWatcher :=
  w.stop

/-- Loading the pre-existing files of the watch directory
(`ToolWatcher::load_existing_tools`, watcher.rs lines 181-199, with
`load_tool_file`, lines 212-238, inlined): for each directory entry in
order, if its extension is allow-listed, register the placeholder tool
and record the path-to-name binding. -/
def loadExistingToolsGo (config : ToolWatcherConfig) :
    ToolRegistry → List (WatchedPath × String) → List WatchedPath →
    ToolRegistry × List (WatchedPath × String)
  | reg, loaded, [] => (reg, loaded)
  | reg, loaded, p :: rest =>
      if shouldWatchFile config p then
        let tool := placeholderTool p
        let reg' := (ToolRegistry.register reg tool).1
        let loaded' := mapInsert loaded p tool.name
        loadExistingToolsGo config reg' loaded' rest
      else
        loadExistingToolsGo config reg loaded rest

/-- One observable side-effecting step of `ToolWatcher::start`
(watcher.rs lines 125-163), in the order the source performs them. -/
inductive StartStep where
  | createWatcher
  | watchDirectory
  | spawnEventConsumer
  | loadExistingTools
  deriving DecidableEq

/-- Start watching (`ToolWatcher::start`, watcher.rs lines 125-163).
If hot reload is disabled the method returns immediately (lines
126-128).  Otherwise it creates the `notify` watcher (line 131),
subscribes it to the watch directory (line 146), spawns the
event-consumer task (lines 155-157) and only then enumerates and loads
the pre-existing files (line 160).  `entries` is the directory listing
`std::fs::read_dir` returns; the second component records the order of
the side-effecting steps. -/
def ToolWatcher.start (w : ToolWatcher) (entries : List WatchedPath) :
    ToolWatcher × List StartStep :=
  if w.config.enable_hot_reload = false then (w, [])
  else
    let loadedResult :=
      loadExistingToolsGo w.config w.registry w.loaded_tools entries
    ({ w with
        fsWatcher := some ()
        registry := loadedResult.1
        loaded_tools := loadedResult.2 },
      [StartStep.createWatcher, StartStep.watchDirectory,
       StartStep.spawnEventConsumer, StartStep.loadExistingTools])

/-- A sample tool used in concrete witnesses: echoes its input. -/
def echoTool : Tool :=
  Tool.new "echo" "Echoes its input" (fun v => Except.ok v)

/-- The tool of spec §8 Scenario B: a registered tool named `slow_echo`
whose synchronous body sleeps 50 milliseconds and then echoes its
input.  The 50 ms of blocking is the `body_ms` argument supplied when
it is executed. -/
def slow_echo : Tool :=
  Tool.new "slow_echo" "Sleeps 50 milliseconds, then echoes its input"
    (fun v => Except.ok v)

/-- A sample tool whose body always returns a domain error. -/
def failingTool : Tool :=
  Tool.new "failing" "Always fails"
    (fun _ => Except.error (IndubitablyError.toolError
      (ToolError.executionFailed "boom")))

/-- First tool registered under the shared name "dup" (modelled on the
source test `test_duplicate_registration`, registry.rs lines 236-260). -/
def dupFirstTool : Tool :=
  Tool.new "dup" "First tool" (fun _ => Except.ok (Value.str "first"))

/-- Second tool registered under the shared name "dup". -/
def dupSecondTool : Tool :=
  Tool.new "dup" "Second tool" (fun _ => Except.ok (Value.str "second"))

/-- A sample pre-existing file in the watch directory whose extension is
on the default allow-list. -/
def sampleRustFile : WatchedPath := { stem := "alpha", ext := some "rs" }

/-- A fresh watcher with the default (hot-reload enabled) configuration
over an empty registry. -/
def watcherEnabled : ToolWatcher :=
  ToolWatcher.new ToolWatcherConfig.default ToolRegistry.new

/-- The default configuration with hot reload disabled. -/
def configNoHotReload : ToolWatcherConfig :=
  { ToolWatcherConfig.default with enable_hot_reload := false }

/-- A fresh watcher with hot reload disabled. -/
def watcherDisabled : ToolWatcher :=
  ToolWatcher.new configNoHotReload ToolRegistry.new

/-- The ordering property claim C7 asserts of `ToolWatcher::start`,
stated over the recorded step trace: every loading of pre-existing
tools happens strictly before the event-consumer loop is spawned. -/
abbrev loadsPrecedeConsumer (trace : List StartStep) : Prop :=
  ∀ i : Fin trace.length, ∀ j : Fin trace.length,
    trace.get i = StartStep.loadExistingTools →
    trace.get j = StartStep.spawnEventConsumer → (i : Nat) < (j : Nat)

theorem mapLookup_mapInsert_self {κ α : Type} [DecidableEq κ]
    (l : List (κ × α)) (k : κ) (v : α) :
    mapLookup (mapInsert l k v) k = some v := by
  induction l with
  | nil => simp [mapInsert, mapLookup]
  | cons hd tl ih =>
      obtain ⟨k', v'⟩ := hd
      by_cases h : k' = k
      · simp [mapInsert, mapLookup, h]
      · simp [mapInsert, mapLookup, h, ih]

theorem mapContains_mapInsert_self {κ α : Type} [DecidableEq κ]
    (l : List (κ × α)) (k : κ) (v : α) :
    mapContains (mapInsert l k v) k = true := by
  induction l with
  | nil => simp [mapInsert, mapContains]
  | cons hd tl ih =>
      obtain ⟨k', v'⟩ := hd
      by_cases h : k' = k
      · simp [mapInsert, mapContains, h]
      · simp [mapInsert, mapContains, h, ih]

theorem mapContains_mapInsert_of_mapContains {κ α : Type} [DecidableEq κ]
    (l : List (κ × α)) (k k' : κ) (v : α)
    (h : mapContains l k = true) :
    mapContains (mapInsert l k' v) k = true := by
  induction l with
  | nil => simp [mapContains] at h
  | cons hd tl ih =>
      obtain ⟨k₀, v₀⟩ := hd
      by_cases hk : k₀ = k'
      · subst hk
        by_cases hkk : k₀ = k
        · subst hkk
          simp [mapInsert, mapContains]
        · simp [mapContains, hkk] at h
          simp [mapInsert, mapContains, hkk, h]
      · by_cases hkk : k₀ = k
        · subst hkk
          simp [mapInsert, mapContains, hk]
        · simp [mapContains, hkk] at h
          simp [mapInsert, mapContains, hk, hkk, ih h]

theorem mapInsert_length_of_mapContains {κ α : Type} [DecidableEq κ]
    (l : List (κ × α)) (k : κ) (v : α)
    (h : mapContains l k = true) :
    (mapInsert l k v).length = l.length := by
  induction l with
  | nil => simp [mapContains] at h
  | cons hd tl ih =>
      obtain ⟨k', v'⟩ := hd
      by_cases hk : k' = k
      · simp [mapInsert, hk]
      · simp [mapContains, hk] at h
        simp [mapInsert, hk, ih h]

theorem mapRemove_of_not_mapContains {κ α : Type} [DecidableEq κ]
    (l : List (κ × α)) (k : κ)
    (h : mapContains l k = false) :
    mapRemove l k = l := by
  induction l with
  | nil => simp [mapRemove]
  | cons hd tl ih =>
      obtain ⟨k', v'⟩ := hd
      by_cases hk : k' = k
      · simp [mapContains, hk] at h
      · simp [mapContains, hk] at h
        simp [mapRemove, hk, ih h]

theorem executeParallelJoin_length (ex : ToolExecutor) (body_ms : Nat → Nat)
    (join_of : Nat → JoinOutcome) (l : List (Tool × ToolExecutionContext))
    (i : Nat) :
    (executeParallelJoin ex body_ms join_of l i).length = l.length := by
  induction l generalizing i with
  | nil => rfl
  | cons hd tl ih =>
      obtain ⟨t, c⟩ := hd
      simp [executeParallelJoin, ih]

theorem executeParallelJoin_getElem? (ex : ToolExecutor)
    (body_ms : Nat → Nat) (join_of : Nat → JoinOutcome)
    (l : List (Tool × ToolExecutionContext)) (i j : Nat)
    (tool : Tool) (ctx : ToolExecutionContext)
    (h : l[j]? = some (tool, ctx)) :
    (executeParallelJoin ex body_ms join_of l i)[j]? =
      some (match join_of (i + j) with
        | JoinOutcome.completed => ex.execute tool ctx (body_ms (i + j))
        | JoinOutcome.failed e =>
            ToolExecutionResult.mkFailure ("Task execution failed: " ++ e) 0) := by
  induction l generalizing i j with
  | nil => simp at h
  | cons hd tl ih =>
      obtain ⟨t, c⟩ := hd
      cases j with
      | zero =>
          simp at h
          obtain ⟨ht, hc⟩ := h
          subst ht
          subst hc
          simp [executeParallelJoin]
      | succ j' =>
          simp at h
          have := ih (i + 1) j' h
          simpa [executeParallelJoin, Nat.add_assoc, Nat.add_comm 1 j'] using this

/-- C1: for every tool and execution context, `ToolExecutor::execute`
returns a `ToolExecutionResult` in exactly one of three shapes,
according to the outcome of the bounded wait (`processResult` is the
three-armed match of executor.rs lines 185-228 inside `execute`, and
the final conjunct ties `execute` itself to it): a completed value
yields `success = true` with the value as output and the elapsed time
recorded; a completed domain error yields `success = false` with the
invocation's error message; an elapsed deadline yields
`success = false`, the timeout message, and a "timeout" metadata entry
carrying the configured timeout (in whole seconds, as the source's
`as_secs` stores it).  `execute` is a total Lean function: no arm
raises or panics. -/
theorem C1_execute_result_shapes (ex : ToolExecutor) (tool : Tool)
    (ctx : ToolExecutionContext) (body_ms : Nat) (tool_name : String)
    (timeout_ms elapsed : Nat) (res : TimedOutcome) :
    (∀ v, res = Except.ok (Except.ok v) →
      (ToolExecutor.processResult tool_name timeout_ms res elapsed).success
          = true ∧
      (ToolExecutor.processResult tool_name timeout_ms res elapsed).output
          = v ∧
      (ToolExecutor.processResult tool_name timeout_ms res
          elapsed).execution_time_ms = elapsed) ∧
    (∀ e, res = Except.ok (Except.error e) →
      (ToolExecutor.processResult tool_name timeout_ms res elapsed).success
          = false ∧
      (ToolExecutor.processResult tool_name timeout_ms res elapsed).error
          = some e) ∧
    (res = Except.error () →
      (ToolExecutor.processResult tool_name timeout_ms res elapsed).success
          = false ∧
      (ToolExecutor.processResult tool_name timeout_ms res elapsed).error
          = some (timeoutMessage tool_name timeout_ms) ∧
      mapLookup (ToolExecutor.processResult tool_name timeout_ms res
          elapsed).metadata "timeout"
          = some (Value.num (timeout_ms / 1000))) ∧
    ex.execute tool ctx body_ms =
      ToolExecutor.processResult ctx.tool_name ctx.timeout_ms
        (syncBoundedWait ctx.timeout_ms body_ms
          (match tool.execute ctx.input with
           | Except.ok output => Except.ok output
           | Except.error e => Except.error e.display)) body_ms := by
  refine ⟨?_, ?_, ?_, rfl⟩
  · intro v h
    subst h
    exact ⟨rfl, rfl, rfl⟩
  · intro e h
    subst h
    exact ⟨rfl, rfl⟩
  · intro h
    subst h
    exact ⟨rfl, rfl, rfl⟩

/-- Witness for C1: the three shapes evaluated at concrete outcomes. -/
theorem C1_execute_result_shapes_witness :
    ((ToolExecutor.processResult "echo" 30000
        (Except.ok (Except.ok (Value.str "x"))) 3).success = true ∧
      (ToolExecutor.processResult "echo" 30000
        (Except.ok (Except.ok (Value.str "x"))) 3).output = Value.str "x" ∧
      (ToolExecutor.processResult "echo" 30000
        (Except.ok (Except.ok (Value.str "x"))) 3).execution_time_ms = 3) ∧
    ((ToolExecutor.processResult "echo" 30000
        (Except.ok (Except.error "boom")) 4).success = false ∧
      (ToolExecutor.processResult "echo" 30000
        (Except.ok (Except.error "boom")) 4).error = some "boom") ∧
    ((ToolExecutor.processResult "echo" 30000 (Except.error ()) 5).success
        = false ∧
      (ToolExecutor.processResult "echo" 30000 (Except.error ()) 5).error
        = some (timeoutMessage "echo" 30000) ∧
      mapLookup (ToolExecutor.processResult "echo" 30000
        (Except.error ()) 5).metadata "timeout" = some (Value.num 30)) :=
  ⟨(C1_execute_result_shapes ToolExecutor.new echoTool
      (ToolExecutionContext.new "echo" Value.null) 0 "echo" 30000 3
      (Except.ok (Except.ok (Value.str "x")))).1 (Value.str "x") rfl,
   (C1_execute_result_shapes ToolExecutor.new echoTool
      (ToolExecutionContext.new "echo" Value.null) 0 "echo" 30000 4
      (Except.ok (Except.error "boom"))).2.1 "boom" rfl,
   (C1_execute_result_shapes ToolExecutor.new echoTool
      (ToolExecutionContext.new "echo" Value.null) 0 "echo" 30000 5
      (Except.error ())).2.2.1 rfl⟩

/-- C6 (code bug): executing `slow_echo` — a synchronous body that
blocks 50 ms and then echoes — under a 10 ms deadline does NOT produce
the timeout failure the spec's Scenario B promises.  Because the body
has no suspension point, its first poll runs to completion before
`tokio::time::timeout` can observe the deadline, so the code returns a
SUCCESS result after the full 50 ms with no timeout marker; the
source's own skipped test (executor.rs lines 329-337) documents the
gap. -/
theorem C6_slow_echo_not_timed_out :
    (ToolExecutor.new.execute slow_echo
        ((ToolExecutionContext.new "slow_echo" (Value.str "hi")).with_timeout
          10) 50).success = true ∧
    (ToolExecutor.new.execute slow_echo
        ((ToolExecutionContext.new "slow_echo" (Value.str "hi")).with_timeout
          10) 50).output = Value.str "hi" ∧
    (ToolExecutor.new.execute slow_echo
        ((ToolExecutionContext.new "slow_echo" (Value.str "hi")).with_timeout
          10) 50).execution_time_ms = 50 ∧
    (ToolExecutor.new.execute slow_echo
        ((ToolExecutionContext.new "slow_echo" (Value.str "hi")).with_timeout
          10) 50).error = none ∧
    mapLookup (ToolExecutor.new.execute slow_echo
        ((ToolExecutionContext.new "slow_echo" (Value.str "hi")).with_timeout
          10) 50).metadata "timeout" = none :=
  ⟨rfl, rfl, rfl, rfl, rfl⟩

/-- C8: `stop()` (and `Drop`, which just calls it) only tears down the
filesystem subscription: afterwards `is_running()` is `false` while the
configuration, the registry contents and the loaded-tools table are all
unchanged. -/
theorem C8_stop_is_frame (w : ToolWatcher) :
    w.stop.is_running = false ∧
    w.stop.registry = w.registry ∧
    w.stop.loaded_tools = w.loaded_tools ∧
    w.stop.config = w.config ∧
    w.dropped = w.stop :=
  ⟨rfl, rfl, rfl, rfl, rfl⟩

/-- C2: `execute_parallel` returns exactly one result per submitted
(tool, context) pair, in submission order: the list lengths agree and
the i-th slot is determined only by the i-th pair, its body duration
and its own join outcome — a failed join (panic or cancellation)
becomes a synthetic failure result in that slot alone, leaving every
other slot and the batch length unaffected. -/
theorem C2_execute_parallel_order (ex : ToolExecutor)
    (executions : List (Tool × ToolExecutionContext))
    (body_ms : Nat → Nat) (join_of : Nat → JoinOutcome) :
    (ex.execute_parallel executions body_ms join_of).length
      = executions.length ∧
    ∀ i tool ctx, executions[i]? = some (tool, ctx) →
      (ex.execute_parallel executions body_ms join_of)[i]? =
        some (match join_of i with
          | JoinOutcome.completed => ex.execute tool ctx (body_ms i)
          | JoinOutcome.failed e =>
              ToolExecutionResult.mkFailure
                ("Task execution failed: " ++ e) 0) := by
  constructor
  · exact executeParallelJoin_length ex body_ms join_of executions 0
  · intro i tool ctx h
    have := executeParallelJoin_getElem? ex body_ms join_of executions 0 i
      tool ctx h
    simpa using this

/-- Witness for C2: a two-element batch in which the runtime completes
the first task and fails the second; the batch keeps both slots, the
first carrying the echo result and the second the synthetic failure. -/
theorem C2_execute_parallel_order_witness :
    (ToolExecutor.new.execute_parallel
        [(echoTool, ToolExecutionContext.new "echo" (Value.str "a")),
         (echoTool, ToolExecutionContext.new "echo" (Value.str "b"))]
        (fun _ => 2)
        (fun i => if i = 1 then JoinOutcome.failed "task 9 panicked"
          else JoinOutcome.completed)).length = 2 ∧
    (ToolExecutor.new.execute_parallel
        [(echoTool, ToolExecutionContext.new "echo" (Value.str "a")),
         (echoTool, ToolExecutionContext.new "echo" (Value.str "b"))]
        (fun _ => 2)
        (fun i => if i = 1 then JoinOutcome.failed "task 9 panicked"
          else JoinOutcome.completed))[1]? =
      some (ToolExecutionResult.mkFailure
        "Task execution failed: task 9 panicked" 0) :=
  ⟨(C2_execute_parallel_order ToolExecutor.new
      [(echoTool, ToolExecutionContext.new "echo" (Value.str "a")),
       (echoTool, ToolExecutionContext.new "echo" (Value.str "b"))]
      (fun _ => 2)
      (fun i => if i = 1 then JoinOutcome.failed "task 9 panicked"
        else JoinOutcome.completed)).1,
   (C2_execute_parallel_order ToolExecutor.new
      [(echoTool, ToolExecutionContext.new "echo" (Value.str "a")),
       (echoTool, ToolExecutionContext.new "echo" (Value.str "b"))]
      (fun _ => 2)
      (fun i => if i = 1 then JoinOutcome.failed "task 9 panicked"
        else JoinOutcome.completed)).2 1 echoTool
      (ToolExecutionContext.new "echo" (Value.str "b")) rfl⟩

/-- C3: `execute_by_name` on a name absent from the registry returns the
infrastructure-level `ToolNotFound` error (never a panic — the function
is total); on a present name it delegates to `execute` on the found
tool with a context carrying the executor's default timeout. -/
theorem C3_execute_by_name (ex : ToolExecutor) (tool_name : String)
    (input : Value) (reg : ToolRegistry) (body_ms : Nat) :
    (reg.get tool_name = none →
      ex.execute_by_name tool_name input reg body_ms =
        Except.error (IndubitablyError.toolError
          (ToolError.toolNotFound
            ("Tool '" ++ tool_name ++ "' not found")))) ∧
    (∀ tool, reg.get tool_name = some tool →
      ex.execute_by_name tool_name input reg body_ms =
        Except.ok (ex.execute tool
          ((ToolExecutionContext.new tool_name input).with_timeout
            ex.default_timeout_ms) body_ms)) := by
  constructor
  · intro h
    simp [ToolExecutor.execute_by_name, h]
  · intro tool h
    simp [ToolExecutor.execute_by_name, h]

/-- Witness for C3: a miss on the empty registry and a hit on a
one-tool registry. -/
theorem C3_execute_by_name_witness :
    (ToolExecutor.new.execute_by_name "missing" Value.null
        ToolRegistry.new 0 =
      Except.error (IndubitablyError.toolError
        (ToolError.toolNotFound ("Tool '" ++ "missing" ++ "' not found")))) ∧
    (ToolExecutor.new.execute_by_name "echo" Value.null
        (ToolRegistry.new.register echoTool).1 0 =
      Except.ok (ToolExecutor.new.execute echoTool
        ((ToolExecutionContext.new "echo" Value.null).with_timeout
          ToolExecutor.new.default_timeout_ms) 0)) :=
  ⟨(C3_execute_by_name ToolExecutor.new "missing" Value.null
      ToolRegistry.new 0).1 rfl,
   (C3_execute_by_name ToolExecutor.new "echo" Value.null
      (ToolRegistry.new.register echoTool).1 0).2 echoTool rfl⟩

/-- C4: register/get round-trip — after `register(tool)`, `get` on the
tool's name returns that very tool (hence a tool whose name equals the
queried name), and `exists` on it is true. -/
theorem C4_register_get_roundtrip (reg : ToolRegistry) (tool : Tool) :
    (reg.register tool).1.get tool.name = some tool ∧
    ((reg.register tool).1.get tool.name).map Tool.name = some tool.name ∧
    (reg.register tool).1.existsTool tool.name = true := by
  have hget : (reg.register tool).1.get tool.name = some tool :=
    mapLookup_mapInsert_self reg tool.name tool
  refine ⟨hget, ?_, mapContains_mapInsert_self reg tool.name tool⟩
  rw [hget]
  rfl

/-- C5: registering a second tool under an already-registered name
replaces the first without error (last write wins): `get` by that name
now observes the second tool (its description and its invocation
function), and the registry count does not increase. -/
theorem C5_register_overwrites (reg : ToolRegistry) (t1 t2 : Tool)
    (h : t1.name = t2.name) :
    ((reg.register t1).1.register t2).2 = Except.ok () ∧
    ((reg.register t1).1.register t2).1.get t1.name = some t2 ∧
    (((reg.register t1).1.register t2).1.get t1.name).map Tool.description
      = some t2.description ∧
    (∀ v, (((reg.register t1).1.register t2).1.get t1.name).map
        (fun t => t.execute v) = some (t2.execute v)) ∧
    ((reg.register t1).1.register t2).1.count = (reg.register t1).1.count := by
  have hget : ((reg.register t1).1.register t2).1.get t1.name = some t2 := by
    rw [h]
    exact mapLookup_mapInsert_self (reg.register t1).1 t2.name t2
  have hcontains : mapContains (mapInsert reg t1.name t1) t2.name = true := by
    rw [← h]
    exact mapContains_mapInsert_self reg t1.name t1
  refine ⟨rfl, hget, ?_, ?_, ?_⟩
  · rw [hget]
    rfl
  · intro v
    rw [hget]
    rfl
  · exact mapInsert_length_of_mapContains (mapInsert reg t1.name t1)
      t2.name t2 hcontains

/-- Witness for C5: the duplicate-registration scenario of the source
test — "dup" registered twice; the lookup observes the second tool and
the count stays at one. -/
theorem C5_register_overwrites_witness :
    ((ToolRegistry.new.register dupFirstTool).1.register dupSecondTool).2
      = Except.ok () ∧
    ((ToolRegistry.new.register dupFirstTool).1.register
        dupSecondTool).1.get dupFirstTool.name = some dupSecondTool ∧
    (((ToolRegistry.new.register dupFirstTool).1.register
        dupSecondTool).1.get dupFirstTool.name).map Tool.description
      = some dupSecondTool.description ∧
    (∀ v, (((ToolRegistry.new.register dupFirstTool).1.register
        dupSecondTool).1.get dupFirstTool.name).map (fun t => t.execute v)
      = some (dupSecondTool.execute v)) ∧
    ((ToolRegistry.new.register dupFirstTool).1.register
        dupSecondTool).1.count
      = (ToolRegistry.new.register dupFirstTool).1.count :=
  C5_register_overwrites ToolRegistry.new dupFirstTool dupSecondTool rfl

/-- C10: the registrys mutating operations are total and never fail:
`register` returns `Ok(())` for every tool, `unregister` returns
`Ok(())` for every name and is a no-op on absent names, and `clear`
returns `Ok(())` in every state. -/
theorem C10_mutators_total (reg : ToolRegistry) (tool : Tool)
    (name : String) :
    (reg.register tool).2 = Except.ok () ∧
    (reg.unregister name).2 = Except.ok () ∧
    reg.clear.2 = Except.ok () ∧
    (reg.existsTool name = false → (reg.unregister name).1 = reg) := by
  refine ⟨rfl, rfl, rfl, ?_⟩
  intro h
  exact mapRemove_of_not_mapContains reg name h

/-- Witness for C10: the totality facts at a concrete registry, with
the no-op conjunct discharged on a name absent from it. -/
theorem C10_mutators_total_witness :
    ((ToolRegistry.new.register echoTool).1.register failingTool).2
      = Except.ok () ∧
    ((ToolRegistry.new.register echoTool).1.unregister "ghost").2
      = Except.ok () ∧
    (ToolRegistry.new.register echoTool).1.clear.2 = Except.ok () ∧
    ((ToolRegistry.new.register echoTool).1.existsTool "ghost" = false →
      ((ToolRegistry.new.register echoTool).1.unregister "ghost").1
        = (ToolRegistry.new.register echoTool).1) :=
  C10_mutators_total (ToolRegistry.new.register echoTool).1
    failingTool "ghost"

theorem loadExistingToolsGo_mono (config : ToolWatcherConfig)
    (entries : List WatchedPath) :
    ∀ reg loaded k, mapContains reg k = true →
      mapContains (loadExistingToolsGo config reg loaded entries).1 k
        = true := by
  induction entries with
  | nil =>
      intro reg loaded k h
      simpa [loadExistingToolsGo] using h
  | cons hd tl ih =>
      intro reg loaded k h
      by_cases hw : shouldWatchFile config hd
      · simp only [loadExistingToolsGo, hw, if_true]
        exact ih _ _ k
          (mapContains_mapInsert_of_mapContains reg k
            (placeholderTool hd).name (placeholderTool hd) h)
      · simp only [loadExistingToolsGo, hw, if_false]
        exact ih _ _ k h

theorem loadExistingToolsGo_registers (config : ToolWatcherConfig)
    (entries : List WatchedPath) :
    ∀ reg loaded p, p ∈ entries → shouldWatchFile config p = true →
      mapContains (loadExistingToolsGo config reg loaded entries).1 p.stem
        = true := by
  induction entries with
  | nil =>
      intro reg loaded p hp
      simp at hp
  | cons hd tl ih =>
      intro reg loaded p hp hw
      rcases List.mem_cons.mp hp with hhd | htl
      · subst hhd
        simp only [loadExistingToolsGo, hw, if_true]
        exact loadExistingToolsGo_mono config tl _ _ p.stem
          (mapContains_mapInsert_self reg p.stem (placeholderTool p))
      · by_cases hw' : shouldWatchFile config hd
        · simp only [loadExistingToolsGo, hw', if_true]
          exact ih _ _ p htl hw
        · simp only [loadExistingToolsGo, hw', if_false]
          exact ih _ _ p htl hw

/-- Counterexample to C7: at a concrete watcher with hot reload enabled
and one allow-listed pre-existing file, the step trace of `start()` is
[create, watch, spawn consumer, load existing] — the event-consumer
task is spawned BEFORE the pre-existing files are loaded, so loading is
not ordered before live-event processing as the claim asserts. -/
theorem C7_start_order_counterexample :
    ¬ loadsPrecedeConsumer ((watcherEnabled.start [sampleRustFile]).2) := by
  intro hall
  have h32 : (3 : Nat) < 2 :=
    hall ⟨3, by decide⟩ ⟨2, by decide⟩ rfl rfl
  omega

/-- C7 as amended: when hot reload is enabled, `start()` creates the
filesystem watcher, subscribes it, spawns the event-consumer task and
only THEN enumerates and loads pre-existing files (so startup loading
is concurrent with live-event processing, not ordered before it); every
pre-existing file on the extension allow-list is nevertheless loaded
into the registry by the time `start()` returns, and the watcher is
then running.  When hot reload is disabled, `start()` is a no-op and
`is_running()` remains false. -/
theorem C7_start_amended (w : ToolWatcher) (entries : List WatchedPath) :
    (w.config.enable_hot_reload = false →
      w.start entries = (w, ([] : List StartStep))) ∧
    (w.config.enable_hot_reload = true →
      (w.start entries).2 =
        [StartStep.createWatcher, StartStep.watchDirectory,
         StartStep.spawnEventConsumer, StartStep.loadExistingTools] ∧
      (w.start entries).1.is_running = true ∧
      ∀ p ∈ entries, shouldWatchFile w.config p = true →
        (w.start entries).1.registry.existsTool p.stem = true) := by
  constructor
  · intro h
    simp [ToolWatcher.start, h]
  · intro h
    have hcond : (w.config.enable_hot_reload = false) = False := by
      simp [h]
    refine ⟨?_, ?_, ?_⟩
    · simp [ToolWatcher.start, hcond]
    · simp [ToolWatcher.start, hcond, ToolWatcher.is_running]
    · intro p hp hw
      have := loadExistingToolsGo_registers w.config entries
        w.registry w.loaded_tools p hp hw
      simpa [ToolWatcher.start, hcond, ToolRegistry.existsTool] using this

/-- Witness for C7 as amended: the disabled watcher is left untouched;
the enabled watcher over one allow-listed file produces the recorded
step order, ends up running, and has the file's tool registered. -/
theorem C7_start_amended_witness :
    watcherDisabled.start [sampleRustFile]
      = (watcherDisabled, ([] : List StartStep)) ∧
    ((watcherEnabled.start [sampleRustFile]).2 =
        [StartStep.createWatcher, StartStep.watchDirectory,
         StartStep.spawnEventConsumer, StartStep.loadExistingTools] ∧
      (watcherEnabled.start [sampleRustFile]).1.is_running = true ∧
      ∀ p ∈ [sampleRustFile],
        shouldWatchFile watcherEnabled.config p = true →
        (watcherEnabled.start [sampleRustFile]).1.registry.existsTool p.stem
          = true) :=
  ⟨(C7_start_amended watcherDisabled [sampleRustFile]).1 rfl,
   (C7_start_amended watcherEnabled [sampleRustFile]).2 rfl⟩

/-- Counterexample to C9: a synthetic failure slot of
`execute_parallel` (a task whose join failed) carries an EMPTY metadata
map — no tool-name and no timing annotation — because the source builds
it with `ToolExecutionResult::failure(...)` alone (executor.rs lines
270-274). -/
theorem C9_synthetic_slot_counterexample :
    (ToolExecutor.new.execute_parallel
        [(echoTool, ToolExecutionContext.new "echo" Value.null)]
        (fun _ => 0) (fun _ => JoinOutcome.failed "task 7 panicked")).map
      ToolExecutionResult.metadata = [[]] :=
  rfl

/-- C9 as amended: every result produced by `execute` (hence by
`execute_by_name` and by every COMPLETED slot of `execute_parallel`)
has its metadata annotated with the tool name and the execution timing,
and carries a "timeout" entry exactly when the deadline elapsed; the
synthetic failure slots that `execute_parallel` fabricates for failed
joins carry an empty metadata map instead. -/
theorem C9_metadata_amended (tool_name : String) (timeout_ms elapsed : Nat)
    (res : TimedOutcome) (msg : String) :
    mapLookup (ToolExecutor.processResult tool_name timeout_ms res
        elapsed).metadata "tool_name" = some (Value.str tool_name) ∧
    mapLookup (ToolExecutor.processResult tool_name timeout_ms res
        elapsed).metadata "execution_time" = some (Value.num elapsed) ∧
    ((mapLookup (ToolExecutor.processResult tool_name timeout_ms res
        elapsed).metadata "timeout").isSome = true ↔
      res = Except.error ()) ∧
    (ToolExecutionResult.mkFailure ("Task execution failed: " ++ msg)
        0).metadata = [] := by
  refine ⟨?_, ?_, ?_, rfl⟩
  · rcases res with u | r
    · rfl
    · rcases r with v | e
      all_goals rfl
  · rcases res with u | r
    · rfl
    · rcases r with v | e
      all_goals rfl
  · rcases res with u | r
    · cases u
      constructor
      · intro _
        rfl
      · intro _
        rfl
    · rcases r with v | e
      · constructor
        · intro hx
          exact Bool.noConfusion (show (false : Bool) = true from hx)
        · intro hx
          exact Except.noConfusion hx
      · constructor
        · intro hx
          exact Bool.noConfusion (show (false : Bool) = true from hx)
        · intro hx
          exact Except.noConfusion hx

end Indubitably
